import Mathlib

/-!
Verification development for the live-interpreter audio channel pipeline.

Shallow embedding of the core modules:
  - src/core/asr_translator.py  (ASRTranslator: streaming session state machine,
    inbound event classifier, outbound configuration message)
  - src/core/audio_capture.py   (AudioCapture: device resolution, resampling)
  - src/core/interpreter.py     (Interpreter: the session supervisor)

Pure functions are embedded as Lean functions; stateful methods are embedded as
explicit state transformers returning the new state together with the list of
messages transmitted during the call.  Python floats that only ever hold exact
ratios of machine integers are modelled by exact integer arithmetic (floor /
truncating division), and Python exceptions by Except.
-/

namespace LiveInterpreter

/-- Value object `TranslationResult` (src/core/asr_translator.py, lines 20-27). -/
structure TranslationResult where
  source_text : String
  translated_text : String
  source_lang : String
  target_lang : String
  is_final : Bool
deriving DecidableEq, Repr

/-- The inbound protocol events dispatched on by `ASRTranslator._on_message`
(src/core/asr_translator.py, lines 124-196), as a discriminated union keyed by
the JSON `type` field, each constructor carrying the payload field the handler
reads (`stash`, `transcript`, `text`, `delta`). -/
inductive InboundEvent where
  | sessionCreated (sessId : String)
  | sessionUpdated
  | speechStarted
  | speechStopped
  | transcriptionText (stash : String)
  | transcriptionCompleted (transcript : String)
  | responseTextDone (text : String)
  | responseTextDelta (delta : String)
  | errorEvent (message : String)
  | otherEvent (eventType : String)
deriving DecidableEq, Repr

/-- JSON values as built by the outbound message constructors of
src/core/asr_translator.py (only strings, arrays and objects occur there). -/
inductive Json where
  | str (s : String)
  | arr (elems : List Json)
  | obj (fields : List (String × Json))

/-- Look up a key in a JSON object field list (first binding wins). -/
def lookupField (fields : List (String × Json)) (k : String) : Option Json :=
  (fields.find? (fun p => p.1 == k)).map Prod.snd

/-- Messages transmitted over the websocket by `ASRTranslator`
(src/core/asr_translator.py): the `session.update` configuration event sent
from `_on_open`, and the `input_audio_buffer.append` audio event sent from
`send_audio`.  The audio payload is base64-encoded by the library at the
wire; the bytes are carried here directly. -/
inductive OutboundMsg where
  | sessionUpdate (payload : Json)
  | appendAudio (audio : List Nat)

namespace ASRTranslator

/-- Mutable state of one `ASRTranslator` (src/core/asr_translator.py):
`_is_running`, `_target_lang`, `_on_result` (the result sink, identified
abstractly by a numeric id), the websocket handle `ws` (`ws_open` is `ws`
being non-None; `ws_connected` is `ws.sock and ws.sock.connected`), and
`_session_id`. -/
structure State where
  is_running : Bool
  target_lang : String
  on_result : Option Nat
  ws_open : Bool
  ws_connected : Bool
  session_id : Option String
deriving DecidableEq, Repr

/-- State of a fresh `ASRTranslator` right after `__init__`
(src/core/asr_translator.py, lines 37-53; an API key is assumed resolvable,
otherwise the constructor raises). -/
def initState : State :=
  { is_running := false
    target_lang := "en"
    on_result := none
    ws_open := false
    ws_connected := false
    session_id := none }

/-- Embedding of `ASRTranslator._on_message` (src/core/asr_translator.py,
lines 124-196): updates the state (`_session_id` on `session.created`) and
produces zero or one `TranslationResult` handed to the result sink.  The
`if stash and self._on_result` guards are the non-emptiness checks together
with the presence of a registered sink. -/
def onMessage (s : State) (ev : InboundEvent) : State × Option TranslationResult :=
  match ev with
  | .sessionCreated sessId => ({ s with session_id := some sessId }, none)
  | .sessionUpdated => (s, none)
  | .speechStarted => (s, none)
  | .speechStopped => (s, none)
  | .transcriptionText stash =>
      if stash ≠ "" ∧ s.on_result.isSome then
        (s, some { source_text := stash, translated_text := "",
                   source_lang := "auto", target_lang := s.target_lang,
                   is_final := false })
      else (s, none)
  | .transcriptionCompleted transcript =>
      if transcript ≠ "" ∧ s.on_result.isSome then
        (s, some { source_text := transcript, translated_text := "",
                   source_lang := "auto", target_lang := s.target_lang,
                   is_final := true })
      else (s, none)
  | .responseTextDone text =>
      if text ≠ "" ∧ s.on_result.isSome then
        (s, some { source_text := "", translated_text := text,
                   source_lang := "auto", target_lang := s.target_lang,
                   is_final := true })
      else (s, none)
  | .responseTextDelta delta =>
      if delta ≠ "" ∧ s.on_result.isSome then
        (s, some { source_text := "", translated_text := delta,
                   source_lang := "auto", target_lang := s.target_lang,
                   is_final := false })
      else (s, none)
  | .errorEvent _ => (s, none)
  | .otherEvent _ => (s, none)

/-- The classifier proper: the optional `TranslationResult` produced for an
inbound event by a session in state `s`. -/
def classify (s : State) (ev : InboundEvent) : Option TranslationResult :=
  (onMessage s ev).2

/-- Method `ASRTranslator.start` (src/core/asr_translator.py, lines 63-88): an early
return if already running; otherwise records the target language and the
result sink, sets `_is_running`, and creates a fresh `WebSocketApp` (not yet
connected) whose event loop runs on a background thread. -/
def start (target_lang : String) (on_result : Nat) (s : State) : State :=
  if s.is_running then s
  else { s with
          target_lang := target_lang
          on_result := some on_result
          is_running := true
          ws_open := true
          ws_connected := false }

/-- Method `ASRTranslator.stop` (src/core/asr_translator.py, lines 227-237): clears
`_is_running`, closes and drops the websocket (exceptions from `close` are
swallowed); total — it never raises. -/
def stop (s : State) : State :=
  { s with is_running := false, ws_open := false, ws_connected := false }

/-- Method `ASRTranslator.switch_language` (src/core/asr_translator.py, lines
220-225): saves the result sink, stops, and — when a sink had been
registered — starts again with the new target language and the saved sink. -/
def switch_language (target_lang : String) (s : State) : State :=
  let saved := s.on_result
  let stopped := stop s
  match saved with
  | some cb => start target_lang cb stopped
  | none => stopped

/-- The guard of `ASRTranslator.send_audio` (src/core/asr_translator.py,
line 209): `self._is_running and self.ws and self.ws.sock and
self.ws.sock.connected` — the session is actually streaming. -/
def streamingB (s : State) : Bool :=
  s.is_running && s.ws_open && s.ws_connected

/-- Method `ASRTranslator.send_audio` (src/core/asr_translator.py, lines 207-218):
when streaming, transmits one `input_audio_buffer.append` message carrying
the audio; otherwise does nothing at all (no queueing, no error, no state
change).  Returns the new state and the messages transmitted. -/
def send_audio (s : State) (audio_data : List Nat) : State × List OutboundMsg :=
  if streamingB s then (s, [.appendAudio audio_data])
  else (s, [])

/-- The `session` object of the `session.update` event built in
`ASRTranslator._on_open` (src/core/asr_translator.py, lines 107-120). -/
def sessionPayload (target_lang : String) : List (String × Json) :=
  [("modalities", .arr [.str "text"]),
   ("input_audio_format", .str "pcm16"),
   ("input_audio_transcription",
     .obj [("model", .str "qwen3-asr-flash-realtime")]),
   ("translation", .obj [("language", .str target_lang)])]

/-- The full `session.update` configuration event
(src/core/asr_translator.py, lines 107-120). -/
def sessionUpdateEvent (target_lang : String) : Json :=
  .obj [("event_id", .str "evt_update_session"),
        ("type", .str "session.update"),
        ("session", .obj (sessionPayload target_lang))]

/-- The keys declared in the `session` object of the configuration message. -/
def sessionKeys (target_lang : String) : List String :=
  (sessionPayload target_lang).map Prod.fst

/-- Method `ASRTranslator._on_open` (src/core/asr_translator.py, lines 99-122),
the Connecting → Configuring transition: sends exactly one message, the
`session.update` configuration event. -/
def on_open (s : State) : State × List OutboundMsg :=
  (s, [.sessionUpdate (sessionUpdateEvent s.target_lang)])

end ASRTranslator

namespace AudioCapture

/-- The clamp applied to every interpolated sample:
`max(-32768, min(32767, value))` (src/core/audio_capture.py, line 236). -/
def clamp16 (v : Int) : Int := max (-32768) (min 32767 v)

/-- Python `range(0, n, step)`: the multiples of `step` below `n`
(src/core/audio_capture.py, line 216; `step ≥ 1` at every call site). -/
def stepRange (step n : Nat) : List Nat :=
  (List.range n).filter (fun i => i % step = 0)

/-- Downmix stage of `AudioCapture._resample` (src/core/audio_capture.py,
lines 214-219): average each group of `source_channels` consecutive samples
with Python floor division (`sum(chunk) // len(chunk)` is `Int.fdiv`). -/
def downmix (source_channels : Nat) (samples : List Int) : List Int :=
  (stepRange source_channels samples.length).map (fun i =>
    let chunk := (samples.drop i).take source_channels
    Int.fdiv chunk.sum chunk.length)

/-- One iteration of the interpolation loop of `AudioCapture._resample`
(src/core/audio_capture.py, lines 226-236) at output index `i`:
`src_pos = i / ratio` with `ratio = sample_rate / source_rate`, so
`idx = int(src_pos) = i * source_rate / sample_rate` (floor) and
`frac = src_pos - idx = (i * source_rate % sample_rate) / sample_rate`.
`int(...)` on the interpolated value truncates toward zero (`Int.tdiv`).
`none` models the `break` when `idx` runs past the input. -/
def interpValue (sample_rate : Nat) (samples : List Int) (source_rate i : Nat) :
    Option Int :=
  let idx : Nat := i * source_rate / sample_rate
  let fracNum : Nat := i * source_rate % sample_rate
  if idx + 1 < samples.length then
    some (clamp16 (Int.tdiv
      (samples.getD idx 0 * ((sample_rate - fracNum : Nat) : Int)
        + samples.getD (idx + 1) 0 * (fracNum : Int))
      (sample_rate : Int)))
  else if idx < samples.length then
    some (clamp16 (samples.getD idx 0))
  else
    none

/-- The interpolation loop with early exit: consumes the list of output
indices in order, stopping at the first `break`. -/
def resampleLoop (sample_rate : Nat) (samples : List Int) (source_rate : Nat) :
    List Nat → List Int
  | [] => []
  | i :: rest =>
    match interpValue sample_rate samples source_rate i with
    | some v => v :: resampleLoop sample_rate samples source_rate rest
    | none => []

/-- Resampling stage of `AudioCapture._resample` (src/core/audio_capture.py,
lines 221-237): when the source rate differs from the target rate, produce
`new_length = int(len(samples) * sample_rate / source_rate)` (floor, as the
operands are non-negative) interpolated samples; otherwise pass through. -/
def resampleStep (sample_rate : Nat) (samples : List Int) (source_rate : Nat) :
    List Int :=
  if source_rate ≠ sample_rate then
    resampleLoop sample_rate samples source_rate
      (List.range (samples.length * sample_rate / source_rate))
  else samples

/-- Method `AudioCapture._resample` (src/core/audio_capture.py, lines 209-239) at
the sample level (16-bit little-endian packing/unpacking elided): downmix if
multichannel, then resample if the rates differ. -/
def resample (sample_rate : Nat) (samples : List Int)
    (source_rate source_channels : Nat) : List Int :=
  resampleStep sample_rate
    (if source_channels > 1 then downmix source_channels samples else samples)
    source_rate

/-- Test whether `needle` is a character-wise prefix of `hay`. -/
def isPrefixChars : List Char → List Char → Bool
  | [], _ => true
  | _ :: _, [] => false
  | a :: as, b :: bs => a == b && isPrefixChars as bs

/-- Substring containment on character lists: `needle` occurs contiguously
somewhere in `hay`. -/
def containsChars (hay needle : List Char) : Bool :=
  match hay with
  | [] => isPrefixChars needle []
  | c :: t => isPrefixChars needle (c :: t) || containsChars t needle

/-- Python `needle in hay` on strings (substring containment), as used for
loopback-device matching (src/core/audio_capture.py, lines 82 and 90). -/
def strContains (hay needle : String) : Bool :=
  containsChars hay.data needle.data

/-- Method `AudioCapture._find_wasapi_loopback` (src/core/audio_capture.py, lines
72-98), given the name of the system default output device and the loopback
device names in enumeration order: first the exact pass (first loopback
whose name contains the default output name), then the fuzzy pass (first
loopback whose name contains the first 15 characters of the default output
name, Python slice [:15] of the default output name), and `none` when both passes fail. -/
def findWasapiLoopback (defaultOutputName : String) (loopbackNames : List String) :
    Option String :=
  match loopbackNames.find? (fun lb => strContains lb defaultOutputName) with
  | some lb => some lb
  | none =>
      loopbackNames.find? (fun lb => strContains lb (defaultOutputName.take 15))

/-- Mutable capture state of one `AudioCapture`
(src/core/audio_capture.py): `is_running` and the capture thread handle. -/
structure CaptureState where
  is_running : Bool
  thread_active : Bool
deriving DecidableEq, Repr

/-- Method `AudioCapture.stop` (src/core/audio_capture.py, lines 241-249): an early
return when not running; otherwise clears `is_running`, joins the capture
thread with a 3-second bound and drops the handle; total — it never
raises. -/
def stopCapture (s : CaptureState) : CaptureState :=
  if ¬ s.is_running then s
  else { is_running := false, thread_active := false }

/-- The parameter names accepted by `AudioCapture.__init__`
(src/core/audio_capture.py, line 26): `sample_rate`, `output_format`,
`device_index`. -/
def initParams : List String := ["sample_rate", "output_format", "device_index"]

end AudioCapture

/-- Python errors surfaced by the embedded calls. -/
inductive PyErr where
  | typeError
  | valueError
deriving DecidableEq, Repr

/-- Supervisor-level caller-usage errors named by the specification. -/
inductive SupervisorErr where
  | duplicateChannelName
  | unknownChannel
deriving DecidableEq, Repr

/-- Python keyword-argument binding: calling a function with a keyword that
is not among its parameter names raises `TypeError` before the body runs. -/
def bindKwargs (parameters supplied : List String) : Except PyErr Unit :=
  if supplied.all (fun k => parameters.contains k) then .ok ()
  else .error .typeError

namespace Interpreter

/-- Structure `ChannelConfig` (src/core/interpreter.py, lines 17-22). -/
structure ChannelConfig where
  name : String
  device_index : Option Nat
  target_lang : String
deriving DecidableEq, Repr

/-- One registered channel: the audio capture, the translator, and the
channel config (src/core/interpreter.py, lines 55-59). -/
structure Channel where
  audio : AudioCapture.CaptureState
  translator : ASRTranslator.State
  config : ChannelConfig
deriving DecidableEq, Repr

/-- Mutable state of the `Interpreter` supervisor
(src/core/interpreter.py, lines 33-37): the name-keyed channel dict (an
association list in insertion order), the result callback, `_is_running`. -/
structure State where
  channels : List (String × Channel)
  on_result_callback : Option Nat
  is_running : Bool
deriving DecidableEq, Repr

/-- A fresh `Interpreter` right after `__init__`
(src/core/interpreter.py, lines 33-37). -/
def initState : State :=
  { channels := [], on_result_callback := none, is_running := false }

/-- Python dict assignment `d[k] = v`: replace in place if the key exists,
append otherwise. -/
def updateEntry (l : List (String × Channel)) (k : String) (v : Channel) :
    List (String × Channel) :=
  match l with
  | [] => [(k, v)]
  | (k0, v0) :: t =>
      if k0 == k then (k, v) :: t else (k0, v0) :: updateEntry t k v

/-- Python dict lookup `k in d` / `d[k]`. -/
def lookupChannel (l : List (String × Channel)) (k : String) : Option Channel :=
  (l.find? (fun p => p.1 == k)).map Prod.snd

/-- Method `Interpreter.add_channel` (src/core/interpreter.py, lines 47-60): first
constructs `AudioCapture(sample_rate=..., channels=..., block_size=...)` —
keyword binding against the parameters of `AudioCapture.__init__`
(`sample_rate`, `output_format`, `device_index`) — then an `ASRTranslator`,
and assigns the channel dict entry under `channel_config.name`,
overwriting any existing entry of that name (no duplicate check). -/
def add_channel (s : State) (cfg : ChannelConfig) : Except PyErr State :=
  match bindKwargs AudioCapture.initParams
      ["sample_rate", "channels", "block_size"] with
  | .error e => .error e
  | .ok _ =>
      let audio : AudioCapture.CaptureState :=
        { is_running := false, thread_active := false }
      let translator := ASRTranslator.initState
      let ch : Channel := { audio := audio, translator := translator, config := cfg }
      .ok { s with channels := updateEntry s.channels cfg.name ch }

/-- Method `Interpreter.switch_language` (src/core/interpreter.py, lines 105-111):
when the channel name is present, delegates to the per-channel translator method
`switch_language` and records the new target language in the channel
config; when the name is absent, the guard `if channel_name in
self.channels` makes the call a silent no-op — nothing is raised. -/
def switch_language (s : State) (channel_name target_lang : String) :
    Except SupervisorErr State :=
  match lookupChannel s.channels channel_name with
  | some ch =>
      let ch2 : Channel :=
        { ch with
            translator := ASRTranslator.switch_language target_lang ch.translator
            config := { ch.config with target_lang := target_lang } }
      .ok { s with channels := updateEntry s.channels channel_name ch2 }
  | none => .ok s

end Interpreter

end LiveInterpreter

namespace LiveInterpreter

open ASRTranslator

theorem clamp16_bounds (v : Int) :
    -32768 ≤ AudioCapture.clamp16 v ∧ AudioCapture.clamp16 v ≤ 32767 :=
  ⟨le_max_left _ _, max_le (by norm_num) (min_le_left _ _)⟩

theorem interpValue_bounds (sample_rate source_rate i : Nat) (samples : List Int)
    (v : Int)
    (h : AudioCapture.interpValue sample_rate samples source_rate i = some v) :
    -32768 ≤ v ∧ v ≤ 32767 := by
  simp only [AudioCapture.interpValue] at h
  split at h
  · exact (Option.some_injective _ h.symm) ▸ clamp16_bounds _
  · split at h
    · exact (Option.some_injective _ h.symm) ▸ clamp16_bounds _
    · exact absurd h (by simp)

theorem interpValue_isSome (sample_rate source_rate i : Nat) (samples : List Int)
    (ht : 0 < sample_rate) (hs : 0 < source_rate)
    (hi : i < samples.length * sample_rate / source_rate) :
    (AudioCapture.interpValue sample_rate samples source_rate i).isSome := by
  have hidx : i * source_rate / sample_rate < samples.length := by
    have h1 : (i + 1) * source_rate ≤
        (samples.length * sample_rate / source_rate) * source_rate :=
      Nat.mul_le_mul_right _ hi
    have h2 : (samples.length * sample_rate / source_rate) * source_rate ≤
        samples.length * sample_rate := Nat.div_mul_le_self _ _
    have h3 : i * source_rate < samples.length * sample_rate := by
      have : i * source_rate < (i + 1) * source_rate :=
        (Nat.mul_lt_mul_right hs).mpr (Nat.lt_succ_self i)
      omega
    exact (Nat.div_lt_iff_lt_mul ht).mpr h3
  simp only [AudioCapture.interpValue]
  split
  · simp
  · simp [hidx]

theorem resampleLoop_length (sample_rate source_rate : Nat) (samples : List Int)
    (l : List Nat)
    (h : ∀ i ∈ l,
      (AudioCapture.interpValue sample_rate samples source_rate i).isSome) :
    (AudioCapture.resampleLoop sample_rate samples source_rate l).length =
      l.length := by
  induction l with
  | nil => rfl
  | cons i rest ih =>
    have hi := h i (List.mem_cons_self i rest)
    obtain ⟨v, hv⟩ := Option.isSome_iff_exists.mp hi
    simp only [AudioCapture.resampleLoop, hv, List.length_cons]
    rw [ih (fun j hj => h j (List.mem_cons_of_mem i hj))]

theorem resampleLoop_bounds (sample_rate source_rate : Nat) (samples : List Int)
    (l : List Nat) :
    ∀ v ∈ AudioCapture.resampleLoop sample_rate samples source_rate l,
      -32768 ≤ v ∧ v ≤ 32767 := by
  induction l with
  | nil => intro v hv; simp [AudioCapture.resampleLoop] at hv
  | cons i rest ih =>
    intro v hv
    simp only [AudioCapture.resampleLoop] at hv
    rcases hveq : AudioCapture.interpValue sample_rate samples source_rate i
      with _ | w
    · rw [hveq] at hv; simp at hv
    · rw [hveq] at hv
      rcases List.mem_cons.mp hv with h | h
      · exact h ▸ interpValue_bounds _ _ _ _ _ hveq
      · exact ih v h

/-- C1: the classifier maps each inbound protocol event to zero or one
`TranslationResult` exactly per the event table: a final source-transcript
event with non-empty text yields (text, "", is_final=true); a final
translation event with non-empty text yields ("", text, is_final=true);
interim transcript and interim translation-delta events yield the
corresponding result with is_final=false; session-lifecycle, voice-activity
and error events yield no result.  (Throughout, a result sink is registered,
as the handler only emits when `self._on_result` is set.) -/
theorem classifier_matches_event_table
    (s : ASRTranslator.State) (cb : Nat) (hcb : s.on_result = some cb)
    (txt : String) (hne : txt ≠ "") :
    classify s (.transcriptionCompleted txt) =
      some { source_text := txt, translated_text := "", source_lang := "auto",
             target_lang := s.target_lang, is_final := true } ∧
    classify s (.responseTextDone txt) =
      some { source_text := "", translated_text := txt, source_lang := "auto",
             target_lang := s.target_lang, is_final := true } ∧
    classify s (.transcriptionText txt) =
      some { source_text := txt, translated_text := "", source_lang := "auto",
             target_lang := s.target_lang, is_final := false } ∧
    classify s (.responseTextDelta txt) =
      some { source_text := "", translated_text := txt, source_lang := "auto",
             target_lang := s.target_lang, is_final := false } ∧
    (∀ sessId, classify s (.sessionCreated sessId) = none) ∧
    classify s (.sessionUpdated) = none ∧
    classify s (.speechStarted) = none ∧
    classify s (.speechStopped) = none ∧
    (∀ msg, classify s (.errorEvent msg) = none) := by
  have hsome : s.on_result.isSome = true := by simp [hcb]
  refine ⟨?_, ?_, ?_, ?_, ?_, ?_, ?_, ?_, ?_⟩ <;>
    simp [classify, onMessage, hne, hsome]

/-- Witness for C1 at the test vector given in the spec: a final-transcript event with
text "你好" and a final-translation event with text "Hello". -/
theorem classifier_matches_event_table_witness :
    (ASRTranslator.classify
        { initState with on_result := some 0 } (.transcriptionCompleted "你好") =
      some { source_text := "你好", translated_text := "", source_lang := "auto",
             target_lang := "en", is_final := true }) ∧
    (ASRTranslator.classify
        { initState with on_result := some 0 } (.responseTextDone "Hello") =
      some { source_text := "", translated_text := "Hello", source_lang := "auto",
             target_lang := "en", is_final := true }) := by
  have h := classifier_matches_event_table
    { initState with on_result := some 0 } 0 rfl "你好" (by decide)
  have h2 := classifier_matches_event_table
    { initState with on_result := some 0 } 0 rfl "Hello" (by decide)
  exact ⟨h.1, h2.2.1⟩

/-- C2 counterexample: the claim says the resampling step produces exactly
`round(N * target_rate / device_rate)` output samples, but the code computes
`int(len(samples) * ratio)`, which truncates (floor) rather than rounds.
For 5 mono samples at 48000 Hz resampled to 16000 Hz the code produces
`⌊5/3⌋ = 1` sample while `round(5 * 16000 / 48000) = round(5/3) = 2`. -/
theorem resample_count_is_not_round :
    ¬ ((AudioCapture.resample 16000 [0, 0, 0, 0, 0] 48000 1).length =
        (round ((5 * 16000 : Rat) / 48000)).toNat) := by
  have h1 : (AudioCapture.resample 16000 [0, 0, 0, 0, 0] 48000 1).length = 1 := by
    decide
  have h2 : round ((5 * 16000 : Rat) / 48000) = 2 := by
    norm_num [round_eq]
  rw [h1, h2]
  decide

/-- C2 amended: for an input sample list of length N with device rate
different from the target rate, the resampling step produces exactly
`⌊N * target_rate / device_rate⌋` (floor, not round: the code uses Python
`int(...)` on a non-negative value) output samples via linear interpolation,
each output sample clamped to the signed 16-bit range [-32768, 32767]. -/
theorem resampleStep_floor_count_and_clamped
    (sample_rate source_rate : Nat) (samples : List Int)
    (hne : source_rate ≠ sample_rate)
    (ht : 0 < sample_rate) (hs : 0 < source_rate) :
    (AudioCapture.resampleStep sample_rate samples source_rate).length =
        samples.length * sample_rate / source_rate ∧
    ∀ v ∈ AudioCapture.resampleStep sample_rate samples source_rate,
      -32768 ≤ v ∧ v ≤ 32767 := by
  constructor
  · rw [AudioCapture.resampleStep, if_pos hne,
      resampleLoop_length sample_rate source_rate samples _
        (fun i hi => interpValue_isSome sample_rate source_rate i
          samples ht hs (List.mem_range.mp hi)),
      List.length_range]
  · intro v hv
    rw [AudioCapture.resampleStep, if_pos hne] at hv
    exact resampleLoop_bounds sample_rate source_rate samples _ v hv

/-- Witness for the amended C2 at a concrete input: 5 samples, 48000 Hz
device rate, 16000 Hz target rate (the single produced sample is the head). -/
theorem resampleStep_floor_count_and_clamped_witness :
    (AudioCapture.resampleStep 16000 [100, -200, 300, 1000, 500] 48000).length =
        ([100, -200, 300, 1000, 500] : List Int).length * 16000 / 48000 ∧
    -32768 ≤ (AudioCapture.resampleStep 16000 [100, -200, 300, 1000, 500]
        48000).headD 0 ∧
    (AudioCapture.resampleStep 16000 [100, -200, 300, 1000, 500]
        48000).headD 0 ≤ 32767 := by
  have h := resampleStep_floor_count_and_clamped 16000 48000
    [100, -200, 300, 1000, 500] (by decide) (by decide) (by decide)
  refine ⟨h.1, (h.2 _ ?_).1, (h.2 _ ?_).2⟩ <;> decide

/-- C3 (code bug): the claim — and the spec contract — says `add_channel`
succeeds for a new channel name and fails with `DuplicateChannelName` for an
existing one.  The code instead raises `TypeError` on every call (it
constructs `AudioCapture` with keywords `channels` and `block_size` that the
constructor does not define) and contains no name-uniqueness check at all.
This theorem evaluates the code at the failing input: a fresh supervisor and
the new name "mic", where the claim requires success. -/
theorem add_channel_fresh_name_raises :
    Interpreter.add_channel Interpreter.initState
        { name := "mic", device_index := none, target_lang := "en" } =
      Except.error PyErr.typeError := rfl

/-- C10: for every supervisor state and every `ChannelConfig`, `add_channel`
raises `TypeError` before registering anything, because the audio source is
constructed with keyword arguments `channels` and `block_size` that
`AudioCapture.__init__` (parameters `sample_rate`, `output_format`,
`device_index`) does not define; consequently no channel can ever be added
through this operation. -/
theorem add_channel_always_type_errors
    (s : Interpreter.State) (cfg : Interpreter.ChannelConfig) :
    Interpreter.add_channel s cfg = Except.error PyErr.typeError := rfl

/-- C4: loopback resolution: the first loopback device whose name contains
the default output name is selected when one exists; otherwise the first
loopback device whose name contains the first 15 characters of the default
output name is selected; when neither exists, resolution yields no device
(the caller then fails with the device-not-found error). -/
theorem findWasapiLoopback_selection (d : String) (names : List String) :
    ((∃ x ∈ names, AudioCapture.strContains x d = true) →
      AudioCapture.findWasapiLoopback d names =
          names.find? (fun x => AudioCapture.strContains x d) ∧
      (AudioCapture.findWasapiLoopback d names).isSome) ∧
    ((∀ x ∈ names, AudioCapture.strContains x d = false) →
      (∃ x ∈ names, AudioCapture.strContains x (d.take 15) = true) →
      AudioCapture.findWasapiLoopback d names =
          names.find? (fun x => AudioCapture.strContains x (d.take 15)) ∧
      (AudioCapture.findWasapiLoopback d names).isSome) ∧
    ((∀ x ∈ names, AudioCapture.strContains x d = false) →
      (∀ x ∈ names, AudioCapture.strContains x (d.take 15) = false) →
      AudioCapture.findWasapiLoopback d names = none) := by
  refine ⟨?_, ?_, ?_⟩
  · rintro ⟨x, hx, hpx⟩
    rcases hfind : names.find? (fun y => AudioCapture.strContains y d)
      with _ | lb
    · rw [List.find?_eq_none] at hfind
      exact absurd hpx (by simpa using hfind x hx)
    · constructor <;> simp [AudioCapture.findWasapiLoopback, hfind]
  · rintro hall ⟨x, hx, hqx⟩
    have hnone : names.find? (fun y => AudioCapture.strContains y d) = none :=
      List.find?_eq_none.mpr (fun y hy => by simp [hall y hy])
    rcases hfind :
        names.find? (fun y => AudioCapture.strContains y (d.take 15))
      with _ | lb
    · rw [List.find?_eq_none] at hfind
      exact absurd hqx (by simpa using hfind x hx)
    · constructor <;> simp [AudioCapture.findWasapiLoopback, hnone, hfind]
  · intro hall hallq
    have hnone : names.find? (fun y => AudioCapture.strContains y d) = none :=
      List.find?_eq_none.mpr (fun y hy => by simp [hall y hy])
    have hnoneq :
        names.find? (fun y => AudioCapture.strContains y (d.take 15)) = none :=
      List.find?_eq_none.mpr (fun y hy => by simp [hallq y hy])
    simp [AudioCapture.findWasapiLoopback, hnone, hnoneq]

/-- Witness for C4 on the three spec scenarios: an exact match, a
15-character fuzzy match, and no match at all. -/
theorem findWasapiLoopback_selection_witness :
    AudioCapture.findWasapiLoopback "Speakers (Realtek)"
        ["Headphones [Loopback]", "Speakers (Realtek) [Loopback]"] =
      some "Speakers (Realtek) [Loopback]" ∧
    AudioCapture.findWasapiLoopback "Speakers (Realtek High Definition)"
        ["Headphones [Loopback]", "Speakers (Realt [Loopback]"] =
      some "Speakers (Realt [Loopback]" ∧
    AudioCapture.findWasapiLoopback "Speakers (Realtek)"
        ["USB Mic [Loopback]"] = none := by
  refine ⟨?_, ?_, ?_⟩
  · have h := (findWasapiLoopback_selection "Speakers (Realtek)"
      ["Headphones [Loopback]", "Speakers (Realtek) [Loopback]"]).1
      (by decide)
    rw [h.1]; decide
  · have h := (findWasapiLoopback_selection "Speakers (Realtek High Definition)"
      ["Headphones [Loopback]", "Speakers (Realt [Loopback]"]).2.1
      (by decide) (by decide)
    rw [h.1]; decide
  · exact (findWasapiLoopback_selection "Speakers (Realtek)"
      ["USB Mic [Loopback]"]).2.2 (by decide) (by decide)

/-- C5: for every session state with a registered result sink,
`switch_language(new_target)` is exactly `stop()` followed by `start()` with
the new target language, and the result sink registered before the switch is
the one registered (and thus invoked) after it. -/
theorem switch_language_is_stop_then_start
    (s : ASRTranslator.State) (lang : String) (cb : Nat)
    (h : s.on_result = some cb) :
    ASRTranslator.switch_language lang s =
      ASRTranslator.start lang cb (ASRTranslator.stop s) ∧
    (ASRTranslator.switch_language lang s).on_result = some cb := by
  constructor
  · simp [ASRTranslator.switch_language, h]
  · simp [ASRTranslator.switch_language, ASRTranslator.stop,
      ASRTranslator.start, h]

/-- Witness for C5 at a concrete mid-stream session (running, connected,
sink id 7), switching to target language "zh". -/
theorem switch_language_is_stop_then_start_witness :
    (ASRTranslator.switch_language "zh"
        { is_running := true, target_lang := "en", on_result := some 7,
          ws_open := true, ws_connected := true, session_id := some "s1" } =
      ASRTranslator.start "zh" 7 (ASRTranslator.stop
        { is_running := true, target_lang := "en", on_result := some 7,
          ws_open := true, ws_connected := true, session_id := some "s1" })) ∧
    (ASRTranslator.switch_language "zh"
        { is_running := true, target_lang := "en", on_result := some 7,
          ws_open := true, ws_connected := true,
          session_id := some "s1" }).on_result = some 7 :=
  switch_language_is_stop_then_start
    { is_running := true, target_lang := "en", on_result := some 7,
      ws_open := true, ws_connected := true, session_id := some "s1" }
    "zh" 7 rfl

/-- C6 counterexample: the claim says `switch_language` on an absent channel
name fails with `UnknownChannel`, raised synchronously; on a fresh supervisor
with no channels and the absent name "ghost" the code returns normally
(silent no-op) and raises nothing. -/
theorem switch_language_unknown_not_error :
    Interpreter.switch_language Interpreter.initState "ghost" "zh" ≠
      Except.error SupervisorErr.unknownChannel := by
  intro h
  exact Except.noConfusion h

/-- C6 amended: for every channel name absent from the channel map,
`switch_language(channel_name, lang)` is a silent no-op: it raises nothing
and leaves the supervisor state unchanged (the code guards with
`if channel_name in self.channels` and has no else branch). -/
theorem switch_language_unknown_silent_noop
    (s : Interpreter.State) (channel_name target_lang : String)
    (h : Interpreter.lookupChannel s.channels channel_name = none) :
    Interpreter.switch_language s channel_name target_lang = Except.ok s := by
  simp [Interpreter.switch_language, h]

/-- Witness for the amended C6 on a fresh supervisor and absent name. -/
theorem switch_language_unknown_silent_noop_witness :
    Interpreter.switch_language Interpreter.initState "ghost" "zh" =
      Except.ok Interpreter.initState :=
  switch_language_unknown_silent_noop Interpreter.initState "ghost" "zh" rfl

/-- C7: stop is idempotent.  For a never-started or already-stopped audio
source and session, calling stop twice raises no error (both embedded stops
are total functions: the audio-capture stop returns early when not running,
the translator stop swallows close errors) and leaves `is_running = false`
after each call; the audio-capture stop is moreover a strict no-op. -/
theorem stop_twice_idempotent
    (a : AudioCapture.CaptureState) (t : ASRTranslator.State)
    (ha : a.is_running = false) (ht : t.is_running = false) :
    AudioCapture.stopCapture a = a ∧
    (AudioCapture.stopCapture a).is_running = false ∧
    (AudioCapture.stopCapture (AudioCapture.stopCapture a)).is_running = false ∧
    (ASRTranslator.stop t).is_running = false ∧
    (ASRTranslator.stop (ASRTranslator.stop t)).is_running = false := by
  refine ⟨?_, ?_, ?_, ?_, ?_⟩ <;>
    simp [AudioCapture.stopCapture, ASRTranslator.stop, ha]

/-- Witness for C7 at a never-started audio source and translator. -/
theorem stop_twice_idempotent_witness :
    AudioCapture.stopCapture { is_running := false, thread_active := false } =
      ({ is_running := false, thread_active := false } :
        AudioCapture.CaptureState) ∧
    (AudioCapture.stopCapture
        { is_running := false, thread_active := false }).is_running = false ∧
    (AudioCapture.stopCapture (AudioCapture.stopCapture
        { is_running := false, thread_active := false })).is_running = false ∧
    (ASRTranslator.stop ASRTranslator.initState).is_running = false ∧
    (ASRTranslator.stop
        (ASRTranslator.stop ASRTranslator.initState)).is_running = false :=
  stop_twice_idempotent { is_running := false, thread_active := false }
    ASRTranslator.initState rfl rfl

/-- C8: for every byte string passed to `send_audio` while the session is not
streaming (the guard `_is_running and ws and ws.sock and ws.sock.connected`
is false), the data is silently dropped: no message is transmitted, nothing
is queued (the embedded state holds every mutable field of the session and
is returned unchanged), and no error is raised (the embedding is total). -/
theorem send_audio_drops_when_not_streaming
    (s : ASRTranslator.State) (audio_data : List Nat)
    (h : ASRTranslator.streamingB s = false) :
    ASRTranslator.send_audio s audio_data = (s, []) := by
  simp [ASRTranslator.send_audio, h]

/-- Witness for C8 on a fresh (never-started) session. -/
theorem send_audio_drops_when_not_streaming_witness :
    ASRTranslator.send_audio ASRTranslator.initState [1, 2, 3] =
      (ASRTranslator.initState, []) :=
  send_audio_drops_when_not_streaming ASRTranslator.initState [1, 2, 3] rfl

/-- C9 counterexample: the claim says the configuration message sent on the
Connecting → Configuring transition declares the sample rate and the
voice-activity-detection parameters; the `session.update` event built in
`_on_open` declares neither — its session object carries no sample-rate key
and no VAD key under any of the protocol spellings. -/
theorem config_message_lacks_rate_and_vad :
    ¬ ((∃ k ∈ ASRTranslator.sessionKeys "en",
          k ∈ ["sample_rate", "input_audio_sample_rate", "sample_rate_hz"]) ∧
       (∃ k ∈ ASRTranslator.sessionKeys "en",
          k ∈ ["turn_detection", "vad", "voice_activity_detection"])) := by
  decide

/-- C9 amended: on every Connecting → Configuring transition the session
sends a single `session.update` configuration message declaring text
modality, input audio format pcm16, the transcription model, and the target
translation language; it declares neither a sample rate nor
voice-activity-detection parameters. -/
theorem on_open_sends_single_config (s : ASRTranslator.State) :
    ASRTranslator.on_open s =
      (s, [.sessionUpdate (ASRTranslator.sessionUpdateEvent s.target_lang)]) ∧
    lookupField (ASRTranslator.sessionPayload s.target_lang) "translation" =
      some (.obj [("language", .str s.target_lang)]) ∧
    lookupField (ASRTranslator.sessionPayload s.target_lang)
        "input_audio_format" = some (.str "pcm16") ∧
    lookupField (ASRTranslator.sessionPayload s.target_lang) "modalities" =
      some (.arr [.str "text"]) ∧
    lookupField (ASRTranslator.sessionPayload s.target_lang)
        "input_audio_transcription" =
      some (.obj [("model", .str "qwen3-asr-flash-realtime")]) ∧
    (∀ k ∈ ASRTranslator.sessionKeys s.target_lang,
      k ∉ ["sample_rate", "input_audio_sample_rate", "sample_rate_hz"] ∧
      k ∉ ["turn_detection", "vad", "voice_activity_detection"]) := by
  refine ⟨rfl, rfl, rfl, rfl, rfl, ?_⟩
  intro k hk
  simp [ASRTranslator.sessionKeys, ASRTranslator.sessionPayload] at hk
  rcases hk with h | h | h | h <;> subst h <;> exact ⟨by decide, by decide⟩

/-- Witness for the amended C9 on a fresh session (target language "en"). -/
theorem on_open_sends_single_config_witness :
    ASRTranslator.on_open ASRTranslator.initState =
      (ASRTranslator.initState,
        [.sessionUpdate (ASRTranslator.sessionUpdateEvent "en")]) ∧
    "modalities" ∉ ["turn_detection", "vad", "voice_activity_detection"] := by
  have h := on_open_sends_single_config ASRTranslator.initState
  exact ⟨h.1, (h.2.2.2.2.2 "modalities" (by decide)).2⟩

end LiveInterpreter
